import Mathlib

/-!
Verification of the spreadsheet-import pipeline of the sales-management
application (file Gestão_Vendas.py).  The definitions below are a shallow
embedding of the Python source:

* `guess_mapping`               — SalesApp.guess_mapping (lines 1521-1534)
* `tentar_mapeamento_automatico`— SalesApp.tentar_mapeamento_automatico (1437-1456)
* `confirm_mapping`             — ImportMappingWindow.confirm (1638-1649)
* `coerceRow` / `convertRow`    — the per-row body of SalesApp._worker_import (1477-1499)
* `processRows`                 — the row loop of _worker_import (1477-1501),
                                  recording the committed batch, the printed
                                  skip warnings and the posted progress values
* `insert_multiple_sales`       — DatabaseManager.insert_multiple_sales (138-150),
                                  with the possibility of an sqlite3 error
                                  modelled by a Boolean oracle `dbFails`
* `worker_import`               — SalesApp._worker_import (1472-1511)

Modelling conventions: raw cell values are strings (pandas is invoked with
keep_default_na=False, so empty cells read as empty strings); Python float
values are modelled exactly as a numerator over a power-of-ten denominator
(`DecimalVal`, valued in Rat by `DecimalVal.toRat`), covering the
decimal-literal fragment of float() (no exponent, inf or nan — none of which
occur in the properties checked here); str.lower is modelled on the ASCII
letters only (every keyword
the heuristics test against is already lower case); int() underscore
separators are not modelled.  Python dicts are association lists in insertion
order; the inversion {v: k for k, v in mapping.items()} keeps, for each value,
the key of its last occurrence, which `invert` below realises by reversing
before swapping.
-/

/-- ASCII-only model of Python str.lower. -/
def asciiLower (c : Char) : Char :=
  if 'A' ≤ c && c ≤ 'Z' then Char.ofNat (c.toNat + 32) else c

/-- Whitespace recognised by Python str.strip on the inputs of interest. -/
def isSpaceChar (c : Char) : Bool :=
  c == ' ' || c == '\t' || c == '\n' || c == '\r'

/-- Model of Python str.strip. -/
def trimChars (cs : List Char) : List Char :=
  ((cs.dropWhile isSpaceChar).reverse.dropWhile isSpaceChar).reverse

/-- Does the pattern occur at the head of the character list? -/
def startsWithChars : List Char → List Char → Bool
  | [], _ => true
  | _ :: _, [] => false
  | a :: asx, b :: bs => a == b && startsWithChars asx bs

/-- Does the pattern occur anywhere in the character list (Python `in`)? -/
def charsInfix (pat : List Char) : List Char → Bool
  | [] => startsWithChars pat []
  | b :: bs => startsWithChars pat (b :: bs) || charsInfix pat bs

/-- Python substring test `pat in s`. -/
def strContains (s pat : String) : Bool := charsInfix pat.data s.data

/-- `column_name.lower().strip()` from guess_mapping. -/
def normCol (s : String) : String := ⟨trimChars (s.data.map asciiLower)⟩

/-- Numeric value of a digit string (only applied to all-digit lists). -/
def digitsVal (ds : List Char) : Nat :=
  ds.foldl (fun a c => a * 10 + (c.toNat - 48)) 0

/-- A non-empty all-digit list parses to its value, anything else fails. -/
def parseDigits (ds : List Char) : Option Nat :=
  if !ds.isEmpty && ds.all Char.isDigit then some (digitsVal ds) else none

/-- Model of Python int(str): optional sign around a non-empty digit string. -/
def pyInt (s : String) : Option Int :=
  match trimChars s.data with
  | '-' :: ds => (parseDigits ds).map fun n => -(n : Int)
  | '+' :: ds => (parseDigits ds).map fun n => (n : Int)
  | ds => (parseDigits ds).map fun n => (n : Int)

/-- Split a character list at the dots (for decimal-literal parsing). -/
def splitOnDot : List Char → List (List Char)
  | [] => [[]]
  | '.' :: rest => [] :: splitOnDot rest
  | c :: rest =>
    match splitOnDot rest with
    | [] => [[c]]
    | p :: ps => (c :: p) :: ps

/-- Exact value of a Python float built from a decimal literal: an integer
numerator over a power-of-ten denominator (kept unnormalised so that every
arithmetic step is kernel-computable). -/
structure DecimalVal where
  num : Int
  den : Nat
  deriving DecidableEq, Repr

/-- The rational value of a `DecimalVal` (used only in specifications). -/
def DecimalVal.toRat (x : DecimalVal) : Rat := (x.num : Rat) / (x.den : Rat)

/-- Negation of a decimal value. -/
def DecimalVal.neg (x : DecimalVal) : DecimalVal := ⟨-x.num, x.den⟩

/-- Unsigned decimal literal: digits, optionally one dot, at least one digit. -/
def parseMantissa (cs : List Char) : Option DecimalVal :=
  match splitOnDot cs with
  | [ip] => (parseDigits ip).map fun n => ⟨(n : Int), 1⟩
  | [ip, fp] =>
    if ip.isEmpty && fp.isEmpty then none
    else if ip.all Char.isDigit && fp.all Char.isDigit then
      some ⟨(digitsVal ip * 10 ^ fp.length + digitsVal fp : Nat), 10 ^ fp.length⟩
    else none
  | _ => none

/-- Model of Python float(str) on decimal literals, as an exact decimal. -/
def pyFloat (s : String) : Option DecimalVal :=
  match trimChars s.data with
  | '-' :: ds => (parseMantissa ds).map DecimalVal.neg
  | '+' :: ds => parseMantissa ds
  | ds => parseMantissa ds

/-- `str(v).replace(",", ".")` from _worker_import (single-character pattern). -/
def commaToDot (s : String) : String :=
  ⟨s.data.map (fun c => if c == ',' then '.' else c)⟩

/-- SalesApp.system_fields, in source order. -/
def system_fields : List String :=
  ["Nome do Cliente", "Nome do Produto", "Quantidade",
   "Valor por unidade (R$)", "Tipo de Pagamento", "Nome do Vendedor"]

/-- The required fields of tentar_mapeamento_automatico and confirm. -/
def required_fields : List String :=
  ["Nome do Cliente", "Nome do Produto", "Quantidade", "Valor por unidade (R$)"]

/-- SalesApp.guess_mapping: keyword cascade classifying one column name. -/
def guess_mapping (column_name : String) : String :=
  let col := normCol column_name
  if ["cliente", "comprador"].any (fun t => strContains col t) then "Nome do Cliente"
  else if ["produto", "item", "descrição"].any (fun t => strContains col t) then "Nome do Produto"
  else if ["qtd", "quant", "quantidade"].any (fun t => strContains col t) then "Quantidade"
  else if ["valor unit", "preço unit", "preco unit", "valor unid", "preço unid"].any
      (fun t => strContains col t) then "Valor por unidade (R$)"
  else if strContains col "vendedor" then "Nome do Vendedor"
  else if ["valor", "preço", "preco"].any (fun t => strContains col t) then "Valor por unidade (R$)"
  else if strContains col "pagamento" || ["forma", "tipo"].any (fun t => strContains col t) then
    "Tipo de Pagamento"
  else if strContains col "nome" then "Nome do Cliente"
  else "Ignorar"

/-- A ColumnMapping: association list column ↦ field, in insertion order. -/
abbrev Mapping := List (String × String)

/-- The inner scan of tentar_mapeamento_automatico: the first sheet column
whose guess equals `field` and which is not yet a key of the mapping. -/
def findColFor (cols : List String) (m : Mapping) (field : String) : Option String :=
  cols.find? (fun col => guess_mapping col == field && !(m.any (fun p => p.1 == col)))

/-- The field loop of tentar_mapeamento_automatico. -/
def autoFold (cols : List String) : List String → Mapping → Mapping
  | [], m => m
  | f :: rest, m =>
    match findColFor cols m f with
    | some col => autoFold cols rest (m ++ [(col, f)])
    | none => autoFold cols rest m

/-- SalesApp.tentar_mapeamento_automatico: the guessed mapping together with
the required fields that received no column (the Python set is rendered as a
list in required-field order). -/
def tentar_mapeamento_automatico (cols : List String) : Mapping × List String :=
  let mapping := autoFold cols system_fields []
  (mapping, required_fields.filter (fun f => !(mapping.any (fun p => p.2 == f))))

/-- ImportMappingWindow.confirm: the submitted selections (one system field or
"Ignorar" per sheet column) are filtered of "Ignorar"; the result is accepted
and handed to the import worker only when every required field is covered. -/
def confirm_mapping (selections : Mapping) : Option Mapping :=
  let final_mapping := selections.filter (fun p => p.2 != "Ignorar")
  if required_fields.all (fun f => final_mapping.any (fun p => p.2 == f)) then
    some final_mapping
  else none

/-- `{v: k for k, v in mapping.items()}`: for lookups, the last pair with a
given value wins, which reversing before swapping realises. -/
def invert (mapping : Mapping) : Mapping :=
  mapping.reverse.map (fun p => (p.2, p.1))

/-- Python dict lookup `d.get(k)` on an association list. -/
def dictGet (d : Mapping) (k : String) : Option String :=
  (d.find? (fun p => p.1 == k)).map (fun p => p.2)

/-- A RawRow: the cells of one spreadsheet row, keyed by column name. -/
abbrev RawRow := List (String × String)

/-- `row[col]` (raising access modelled as Option). -/
def rowGet (row : RawRow) (col : String) : Option String :=
  (row.find? (fun p => p.1 == col)).map (fun p => p.2)

/-- `row[system_to_sheet[field]]` — error when the field is not in the
inverted mapping (KeyError) or the column is absent from the row (KeyError). -/
def getCell (s2s : Mapping) (row : RawRow) (field : String) : Except String String :=
  match dictGet s2s field with
  | none => Except.error "KeyError"
  | some col =>
    match rowGet row col with
    | none => Except.error "KeyError"
    | some v => Except.ok v

/-- `row.get(system_to_sheet.get(field), default)` — never raises: the default
is used when the field is unmapped or the mapped column is absent; a present
empty cell is returned as the empty string. -/
def optField (s2s : Mapping) (row : RawRow) (field default : String) : String :=
  match dictGet s2s field with
  | none => default
  | some col =>
    match rowGet row col with
    | none => default
    | some v => v

/-- The mapped cell of a row for a system field, when both lookups succeed. -/
def mappedCell (m : Mapping) (row : RawRow) (field : String) : Option String :=
  (getCell (invert m) row field).toOption

/-- The coercions of the try-block of _worker_import, in source order:
client and product as strings, quantity through int(), unit price through
float() after comma normalisation.  Any KeyError/ValueError is the
exception caught at line 1497. -/
def coerceRow (mapping : Mapping) (row : RawRow) :
    Except String (String × String × Int × DecimalVal) :=
  match getCell (invert mapping) row "Nome do Cliente" with
  | Except.error e => Except.error e
  | Except.ok nc =>
    match getCell (invert mapping) row "Nome do Produto" with
    | Except.error e => Except.error e
    | Except.ok np =>
      match getCell (invert mapping) row "Quantidade" with
      | Except.error e => Except.error e
      | Except.ok qs =>
        match pyInt qs with
        | none => Except.error "ValueError"
        | some q =>
          match getCell (invert mapping) row "Valor por unidade (R$)" with
          | Except.error e => Except.error e
          | Except.ok vs =>
            match pyFloat (commaToDot vs) with
            | none => Except.error "ValueError"
            | some pu => Except.ok (nc, np, q, pu)

/-- One sale record as assembled at lines 1493-1496 of the source. -/
structure Sale where
  nome_cliente : String
  nome_produto : String
  quantidade : Int
  preco_unitario : DecimalVal
  tipo_pagamento : String
  preco_final : DecimalVal
  nome_vendedor : String
  data_hora : String
  deriving DecidableEq, Repr

/-- Outcome of one iteration of the row loop: append to the batch, skip with
a printed warning (the except-branch), or skip silently (the validity-check
continue at line 1488). -/
inductive RowResult where
  | ok (s : Sale)
  | skipError (msg : String)
  | skipInvalid
  deriving DecidableEq, Repr

/-- The body of the row loop of _worker_import for a single row. -/
def convertRow (mapping : Mapping) (now : String) (row : RawRow) : RowResult :=
  match coerceRow mapping row with
  | Except.error e => RowResult.skipError e
  | Except.ok (nc, np, q, pu) =>
    let s2s := invert mapping
    let tp := optField s2s row "Tipo de Pagamento" "Não Informado"
    let nv := optField s2s row "Nome do Vendedor" "Importado"
    if nc == "" || np == "" || decide (q ≤ 0) || decide (pu.num < 0) then
      RowResult.skipInvalid
    else
      RowResult.ok ⟨nc, np, q, pu, tp, ⟨q * pu.num, pu.den⟩, nv, now⟩

/-- State accumulated by the row loop: the candidate batch, the printed skip
warnings (spreadsheet row number = index+2, message) and the progress values
posted to the progress bar (index+1, posted only on the accepted path, since
both skip paths `continue` past line 1501). -/
structure ImportState where
  batch : List Sale
  skipLog : List (Nat × String)
  progress : List Nat
  deriving DecidableEq, Repr

/-- The row loop of _worker_import starting at dataframe index `i`. -/
def processFrom (mapping : Mapping) (now : String) : Nat → List RawRow → ImportState
  | _, [] => ⟨[], [], []⟩
  | i, r :: rs =>
    match convertRow mapping now r with
    | RowResult.ok s =>
      let rest := processFrom mapping now (i + 1) rs
      ⟨s :: rest.batch, rest.skipLog, (i + 1) :: rest.progress⟩
    | RowResult.skipError msg =>
      let rest := processFrom mapping now (i + 1) rs
      ⟨rest.batch, (i + 2, msg) :: rest.skipLog, rest.progress⟩
    | RowResult.skipInvalid => processFrom mapping now (i + 1) rs

/-- The full row loop (dataframe indices start at 0). -/
def processRows (mapping : Mapping) (now : String) (rows : List RawRow) : ImportState :=
  processFrom mapping now 0 rows

/-- DatabaseManager.insert_multiple_sales: executemany + commit in a single
transaction; on an sqlite3 error (oracle `dbFails`) the transaction is rolled
back, leaving the store unchanged, and False is returned. -/
def insert_multiple_sales (db : List Sale) (dbFails : Bool) (sales : List Sale) :
    List Sale × Bool :=
  if dbFails then (db, false) else (db ++ sales, true)

/-- The message _worker_import leaves the user with. -/
inductive FinalMessage where
  | successInfo (n : Nat)
  | insertFailure
  | noValidRows
  deriving DecidableEq, Repr

/-- Result of one import run: the store after the run plus the observable
outcome fields. -/
structure WorkerResult where
  newDb : List Sale
  rows_total : Nat
  rows_committed : Nat
  skipLog : List (Nat × String)
  progress : List Nat
  message : FinalMessage
  deriving DecidableEq, Repr

/-- SalesApp._worker_import: run the row loop, then bulk-insert the batch when
it is non-empty (success message with the batch size, or the failure surfaced
by the database manager), or warn that no valid record was found. -/
def worker_import (db : List Sale) (dbFails : Bool) (mapping : Mapping)
    (now : String) (rows : List RawRow) : WorkerResult :=
  let st := processRows mapping now rows
  if st.batch.isEmpty then
    ⟨db, rows.length, 0, st.skipLog, st.progress, FinalMessage.noValidRows⟩
  else
    match insert_multiple_sales db dbFails st.batch with
    | (db2, true) =>
      ⟨db2, rows.length, st.batch.length, st.skipLog, st.progress,
        FinalMessage.successInfo st.batch.length⟩
    | (db2, false) =>
      ⟨db2, rows.length, 0, st.skipLog, st.progress, FinalMessage.insertFailure⟩

/-- Classifier helpers used in the theorem statements. -/
def isOk : RowResult → Bool
  | RowResult.ok _ => true
  | _ => false

def isSkipError : RowResult → Bool
  | RowResult.skipError _ => true
  | _ => false

def skipMsg : RowResult → String
  | RowResult.skipError m => m
  | _ => ""

def okSale : RowResult → Option Sale
  | RowResult.ok s => some s
  | _ => none

/-- Was the optional field unmapped, or its mapped column absent from the row? -/
def unmappedOrMissing (m : Mapping) (row : RawRow) (field : String) : Bool :=
  match dictGet (invert m) field with
  | none => true
  | some c => (rowGet row c).isNone

/-- A minimal complete mapping used for the concrete test rows. -/
def M0 : Mapping :=
  [("cliente", "Nome do Cliente"), ("produto", "Nome do Produto"),
   ("qtd", "Quantidade"), ("valor", "Valor por unidade (R$)")]

/-- A concrete row under M0 with the given quantity and unit-value cells. -/
def mkRow (q v : String) : RawRow :=
  [("cliente", "Ana"), ("produto", "Bolo"), ("qtd", q), ("valor", v)]

/-- A 10-row input whose rows at spreadsheet numbers 3 and 7 (dataframe
indices 1 and 5) are malformed: their quantity cell does not coerce. -/
def rows10 : List RawRow :=
  [mkRow "1" "2", mkRow "abc" "2", mkRow "1" "2", mkRow "1" "2", mkRow "1" "2",
   mkRow "abc" "2", mkRow "1" "2", mkRow "1" "2", mkRow "1" "2", mkRow "1" "2"]

/-- M0 extended with a mapped Payment Type column. -/
def M1 : Mapping := M0 ++ [("pag", "Tipo de Pagamento")]

/-- A row whose mapped Payment Type cell is present but empty. -/
def rowE : RawRow :=
  [("cliente", "Ana"), ("produto", "Bolo"), ("qtd", "2"), ("valor", "3"), ("pag", "")]

/-- A manual mapping submission assigning two sheet columns to Quantidade
while covering every required field. -/
def c4sel : Mapping :=
  [("a", "Nome do Cliente"), ("b", "Nome do Produto"), ("q1", "Quantidade"),
   ("q2", "Quantidade"), ("v", "Valor por unidade (R$)")]

/-- The sale produced from mkRow "3" "10,50" under M0. -/
def sale3 : Sale :=
  ⟨"Ana", "Bolo", 3, ⟨1050, 100⟩, "Não Informado", ⟨3150, 100⟩, "Importado", "t"⟩

theorem processFrom_skipLog (m : Mapping) (now : String) :
    ∀ (rows : List RawRow) (i : Nat),
      (processFrom m now i rows).skipLog =
        ((List.enumFrom i rows).filter fun p => isSkipError (convertRow m now p.2)).map
          fun p => (p.1 + 2, skipMsg (convertRow m now p.2)) := by
  intro rows
  induction rows with
  | nil => intro i; rfl
  | cons r rs ih =>
    intro i
    cases h : convertRow m now r with
    | ok s => simp [processFrom, h, List.enumFrom, isSkipError, ih (i + 1)]
    | skipError msg => simp [processFrom, h, List.enumFrom, isSkipError, skipMsg, ih (i + 1)]
    | skipInvalid => simp [processFrom, h, List.enumFrom, isSkipError, ih (i + 1)]

theorem processFrom_progress (m : Mapping) (now : String) :
    ∀ (rows : List RawRow) (i : Nat),
      (processFrom m now i rows).progress =
        ((List.enumFrom i rows).filter fun p => isOk (convertRow m now p.2)).map
          fun p => p.1 + 1 := by
  intro rows
  induction rows with
  | nil => intro i; rfl
  | cons r rs ih =>
    intro i
    cases h : convertRow m now r with
    | ok s => simp [processFrom, h, List.enumFrom, isOk, ih (i + 1)]
    | skipError msg => simp [processFrom, h, List.enumFrom, isOk, ih (i + 1)]
    | skipInvalid => simp [processFrom, h, List.enumFrom, isOk, ih (i + 1)]

theorem processFrom_batch (m : Mapping) (now : String) :
    ∀ (rows : List RawRow) (i : Nat),
      (processFrom m now i rows).batch =
        rows.filterMap fun r => okSale (convertRow m now r) := by
  intro rows
  induction rows with
  | nil => intro i; rfl
  | cons r rs ih =>
    intro i
    cases h : convertRow m now r with
    | ok s => simp [processFrom, h, okSale, ih (i + 1)]
    | skipError msg => simp [processFrom, h, okSale, ih (i + 1)]
    | skipInvalid => simp [processFrom, h, okSale, ih (i + 1)]

theorem processFrom_progress_bounds (m : Mapping) (now : String) :
    ∀ (rows : List RawRow) (i : Nat),
      List.Pairwise (· < ·) (processFrom m now i rows).progress ∧
        ∀ x ∈ (processFrom m now i rows).progress, i < x ∧ x ≤ i + rows.length := by
  intro rows
  induction rows with
  | nil => intro i; exact ⟨List.Pairwise.nil, by intro x hx; cases hx⟩
  | cons r rs ih =>
    intro i
    obtain ⟨ihp, ihb⟩ := ih (i + 1)
    have hlen : (r :: rs).length = rs.length + 1 := List.length_cons r rs
    cases h : convertRow m now r with
    | ok s =>
      constructor
      · simp only [processFrom, h]
        exact List.Pairwise.cons (fun x hx => (ihb x hx).1) ihp
      · simp only [processFrom, h, hlen]
        intro x hx
        rcases List.mem_cons.mp hx with rfl | hx
        · omega
        · have := ihb x hx; omega
    | skipError msg =>
      constructor
      · simp only [processFrom, h]; exact ihp
      · simp only [processFrom, h, hlen]
        intro x hx
        have := ihb x hx; omega
    | skipInvalid =>
      constructor
      · simp only [processFrom, h]; exact ihp
      · simp only [processFrom, h, hlen]
        intro x hx
        have := ihb x hx; omega

theorem autoFold_values_sublist (cols : List String) :
    ∀ (fs : List String) (m : Mapping),
      List.Sublist ((autoFold cols fs m).map Prod.snd) (m.map Prod.snd ++ fs) := by
  intro fs
  induction fs with
  | nil => intro m; simp [autoFold]
  | cons f rest ih =>
    intro m
    cases h : findColFor cols m f with
    | none =>
      simp only [autoFold, h]
      exact (ih m).trans
        (List.Sublist.append_left (List.sublist_cons_self f rest) (m.map Prod.snd))
    | some col =>
      simp only [autoFold, h]
      simpa using ih (m ++ [(col, f)])

theorem autoFold_nodup_values (cols : List String) :
    ((autoFold cols system_fields []).map Prod.snd).Nodup := by
  have hsub := autoFold_values_sublist cols system_fields []
  simp only [List.map_nil, List.nil_append] at hsub
  exact hsub.nodup (by decide)

theorem autoFold_mem (cols : List String) :
    ∀ (fs : List String) (m : Mapping) (x : String × String), x ∈ m →
      x ∈ autoFold cols fs m := by
  intro fs
  induction fs with
  | nil => intro m x hx; simpa [autoFold] using hx
  | cons f rest ih =>
    intro m x hx
    cases h : findColFor cols m f with
    | none => simp only [autoFold, h]; exact ih m x hx
    | some col =>
      simp only [autoFold, h]
      exact ih _ x (List.mem_append_left _ hx)

theorem autoFold_guess (cols : List String) :
    ∀ (fs : List String) (m : Mapping) (p : String × String),
      p ∈ autoFold cols fs m → p ∈ m ∨ guess_mapping p.1 = p.2 := by
  intro fs
  induction fs with
  | nil => intro m p hp; simp only [autoFold] at hp; exact Or.inl hp
  | cons f rest ih =>
    intro m p hp
    cases h : findColFor cols m f with
    | none => simp only [autoFold, h] at hp; exact ih m p hp
    | some col =>
      simp only [autoFold, h] at hp
      rcases ih _ p hp with hmem | hg
      · rcases List.mem_append.mp hmem with hm | hsingle
        · exact Or.inl hm
        · right
          have h2 : List.find?
              (fun c => guess_mapping c == f && !(m.any (fun q => q.1 == c))) cols =
              some col := h
          have hcol := List.find?_some h2
          simp only [Bool.and_eq_true, beq_iff_eq] at hcol
          rcases List.mem_singleton.mp hsingle with rfl
          simpa using hcol.1
      · exact Or.inr hg

theorem find?_append_none {α : Type} (p : α → Bool) (pre l : List α)
    (h : ∀ c ∈ pre, p c = false) :
    List.find? p (pre ++ l) = List.find? p l := by
  induction pre with
  | nil => rfl
  | cons a asx ih =>
    simp only [List.cons_append, List.find?]
    rw [h a (List.mem_cons_self a asx)]
    exact ih (fun c hc => h c (List.mem_cons_of_mem a hc))

theorem coerceRow_ok_inv (m : Mapping) (row : RawRow) (nc np : String) (q : Int)
    (pu : DecimalVal)
    (h : coerceRow m row = Except.ok (nc, np, q, pu)) :
    getCell (invert m) row "Nome do Cliente" = Except.ok nc ∧
    getCell (invert m) row "Nome do Produto" = Except.ok np ∧
    ∃ qs vs,
      getCell (invert m) row "Quantidade" = Except.ok qs ∧ pyInt qs = some q ∧
      getCell (invert m) row "Valor por unidade (R$)" = Except.ok vs ∧
      pyFloat (commaToDot vs) = some pu := by
  unfold coerceRow at h
  cases h1 : getCell (invert m) row "Nome do Cliente" with
  | error e => simp [h1] at h
  | ok nc0 =>
  simp only [h1] at h
  cases h2 : getCell (invert m) row "Nome do Produto" with
  | error e => simp [h2] at h
  | ok np0 =>
  simp only [h2] at h
  cases h3 : getCell (invert m) row "Quantidade" with
  | error e => simp [h3] at h
  | ok qs =>
  simp only [h3] at h
  cases h4 : pyInt qs with
  | none => simp [h4] at h
  | some q0 =>
  simp only [h4] at h
  cases h5 : getCell (invert m) row "Valor por unidade (R$)" with
  | error e => simp [h5] at h
  | ok vs =>
  simp only [h5] at h
  cases h6 : pyFloat (commaToDot vs) with
  | none => simp [h6] at h
  | some pu0 =>
  simp only [h6, Except.ok.injEq, Prod.mk.injEq] at h
  obtain ⟨rfl, rfl, rfl, rfl⟩ := h
  exact ⟨rfl, rfl, qs, vs, rfl, h4, rfl, h6⟩

theorem convertRow_ok_inv (m : Mapping) (now : String) (row : RawRow) (s : Sale)
    (h : convertRow m now row = RowResult.ok s) :
    coerceRow m row =
      Except.ok (s.nome_cliente, s.nome_produto, s.quantidade, s.preco_unitario) ∧
    s.nome_cliente ≠ "" ∧ s.nome_produto ≠ "" ∧
    0 < s.quantidade ∧ 0 ≤ s.preco_unitario.num ∧
    s.preco_final = ⟨s.quantidade * s.preco_unitario.num, s.preco_unitario.den⟩ ∧
    s.tipo_pagamento = optField (invert m) row "Tipo de Pagamento" "Não Informado" ∧
    s.nome_vendedor = optField (invert m) row "Nome do Vendedor" "Importado" ∧
    s.data_hora = now := by
  unfold convertRow at h
  cases hc : coerceRow m row with
  | error e => simp [hc] at h
  | ok t =>
    obtain ⟨nc, np, q, pu⟩ := t
    simp only [hc] at h
    by_cases hv : (nc == "" || np == "" || decide (q ≤ 0) || decide (pu.num < 0)) = true
    · rw [if_pos hv] at h; cases h
    · rw [if_neg hv] at h
      injection h with h
      subst h
      dsimp only
      simp only [Bool.or_eq_true, beq_iff_eq, decide_eq_true_eq, not_or] at hv
      obtain ⟨⟨⟨hnc, hnp⟩, hq⟩, hpu⟩ := hv
      refine ⟨rfl, hnc, hnp, by omega, by omega, rfl, rfl, rfl, rfl⟩

theorem optField_default_of_unmapped (s2s : Mapping) (row : RawRow) (f d : String)
    (h : dictGet s2s f = none) : optField s2s row f d = d := by
  simp only [optField, h]

theorem optField_default_of_missing (s2s : Mapping) (row : RawRow) (f d c : String)
    (h1 : dictGet s2s f = some c) (h2 : rowGet row c = none) :
    optField s2s row f d = d := by
  simp only [optField, h1, h2]

theorem unmappedOrMissing_default (m : Mapping) (row : RawRow) (f d : String)
    (h : unmappedOrMissing m row f = true) :
    optField (invert m) row f d = d := by
  unfold unmappedOrMissing at h
  cases h1 : dictGet (invert m) f with
  | none => exact optField_default_of_unmapped _ _ _ _ h1
  | some c =>
    simp only [h1] at h
    cases h2 : rowGet row c with
    | none => exact optField_default_of_missing _ _ _ _ _ h1 h2
    | some v => simp only [h2, Option.isNone] at h; cases h

theorem getCell_of_mappedCell (m : Mapping) (row : RawRow) (f v : String)
    (h : mappedCell m row f = some v) :
    getCell (invert m) row f = Except.ok v := by
  unfold mappedCell at h
  cases h1 : getCell (invert m) row f with
  | error e => simp only [h1, Except.toOption] at h; cases h
  | ok w => simp only [h1, Except.toOption, Option.some.injEq] at h; rw [h]

theorem invert_last_wins (m : Mapping) (c f : String) :
    dictGet (invert (m ++ [(c, f)])) f = some c := by
  simp [invert, dictGet, List.find?]

theorem worker_import_db_extends (db : List Sale) (dbFails : Bool) (m : Mapping)
    (now : String) (rows : List RawRow) :
    ∃ ext, (worker_import db dbFails m now rows).newDb = db ++ ext := by
  unfold worker_import insert_multiple_sales
  by_cases h : (processRows m now rows).batch.isEmpty
  · rw [if_pos h]; exact ⟨[], by simp⟩
  · rw [if_neg h]
    cases dbFails with
    | true => exact ⟨[], by simp⟩
    | false => exact ⟨(processRows m now rows).batch, by simp⟩

/-- Claim C3 (confirmed): when the bulk insert of the Record Store fails, the
Commit step commits nothing — the store is unchanged and rows_committed is 0 —
for every mapping and input; rows are never retried individually (the worker
calls insert_multiple_sales exactly once on the whole batch). -/
theorem C3_commit_all_or_nothing (db : List Sale) (m : Mapping) (now : String)
    (rows : List RawRow) :
    (worker_import db true m now rows).newDb = db ∧
    (worker_import db true m now rows).rows_committed = 0 := by
  unfold worker_import insert_multiple_sales
  by_cases h : (processRows m now rows).batch.isEmpty
  · rw [if_pos h]; exact ⟨rfl, rfl⟩
  · rw [if_neg h]; exact ⟨rfl, rfl⟩

/-- Claim C10 (confirmed): an import run only appends to the Record Store —
whatever the mapping, the rows, and whether the bulk insert succeeds, fails,
or is skipped for an empty batch, the new store is the old store followed by
some (possibly empty) list of new records, so every pre-existing record is
unchanged. -/
theorem C10_store_append_only (db : List Sale) (dbFails : Bool) (m : Mapping)
    (now : String) (rows : List RawRow) :
    ∃ ext, (worker_import db dbFails m now rows).newDb = db ++ ext ∧
      (worker_import db dbFails m now rows).newDb.take db.length = db := by
  obtain ⟨ext, hext⟩ := worker_import_db_extends db dbFails m now rows
  exact ⟨ext, hext, by rw [hext]; exact List.take_left db ext⟩

/-- Claim C1 counterexample: a row whose quantity coerces to 0 fails the
validity condition and is skipped (it is not committed), yet no entry is
appended to the skip log — the validity-failure continue at line 1488 records
nothing, contradicting the claim that every skip appends an entry. -/
theorem C1_counterexample :
    (processRows M0 "t" [mkRow "0" "5"]).batch = [] ∧
    (processRows M0 "t" [mkRow "0" "5"]).skipLog = [] := by decide

/-- Claim C1 (amended): skips never abort the batch — the batch is exactly the
accepted rows in order and the skip log is exactly, in input row order, one
entry (index+2, error) per coercion-failure row; validity-condition failures
(including empty names, tested without trimming) are skipped silently with no
entry.  For the 10-row file rows10 whose spreadsheet rows 3 and 7 fail
coercion, the outcome is rows_total=10, rows_committed=8, two rows skipped,
and the skip log holds exactly rows 3 and 7 in that order. -/
theorem C1_amended :
    (∀ (m : Mapping) (now : String) (rows : List RawRow),
      (processRows m now rows).skipLog =
        ((List.enumFrom 0 rows).filter fun p => isSkipError (convertRow m now p.2)).map
          (fun p => (p.1 + 2, skipMsg (convertRow m now p.2))) ∧
      (processRows m now rows).batch =
        rows.filterMap fun r => okSale (convertRow m now r)) ∧
    (worker_import [] false M0 "t" rows10).rows_total = 10 ∧
    (worker_import [] false M0 "t" rows10).rows_committed = 8 ∧
    (worker_import [] false M0 "t" rows10).rows_total -
      (worker_import [] false M0 "t" rows10).rows_committed = 2 ∧
    (worker_import [] false M0 "t" rows10).skipLog.map Prod.fst = [3, 7] := by
  refine ⟨fun m now rows => ⟨processFrom_skipLog m now rows 0, processFrom_batch m now rows 0⟩,
    ?_, ?_, ?_, ?_⟩ <;> decide

/-- Claim C2 counterexample: a one-row input whose single row is skipped
posts no progress update at all — the progress report is skipped by both
continue paths — contradicting one unit of progress per processed row and
the claim that progress reaches rows_total. -/
theorem C2_counterexample :
    (processRows M0 "t" [mkRow "abc" "5"]).progress = [] ∧
    ([mkRow "abc" "5"] : List RawRow).length = 1 := by decide

/-- Claim C2 (amended): a progress update is posted only for accepted rows —
the posted sequence is exactly index+1 over the accepted rows in order — and
that sequence is strictly increasing and bounded by rows_total; it reaches
rows_total only when the last row is accepted, not for every batch. -/
theorem C2_amended (m : Mapping) (now : String) (rows : List RawRow) :
    (processRows m now rows).progress =
      ((List.enumFrom 0 rows).filter fun p => isOk (convertRow m now p.2)).map
        (fun p => p.1 + 1) ∧
    List.Pairwise (· < ·) (processRows m now rows).progress ∧
    ∀ x ∈ (processRows m now rows).progress, x ≤ rows.length := by
  obtain ⟨hp, hb⟩ := processFrom_progress_bounds m now rows 0
  exact ⟨processFrom_progress m now rows 0, hp, fun x hx => by simpa using (hb x hx).2⟩

/-- Witness for C2_amended at a concrete accepted row. -/
theorem C2_amended_witness :
    1 ∈ (processRows M0 "t" [mkRow "1" "2"]).progress ∧
    1 ≤ ([mkRow "1" "2"] : List RawRow).length := by
  have h := (C2_amended M0 "t" [mkRow "1" "2"]).2.2 1 (by decide)
  exact ⟨by decide, h⟩

/-- Claim C4 counterexample: the manual-review confirm step accepts the
submission c4sel, under which Execute then runs, although it maps two source
columns (q1 and q2) to the required field Quantidade — so not every mapping
under which Execute runs is one-column-per-field. -/
theorem C4_counterexample :
    confirm_mapping c4sel = some c4sel ∧
    (c4sel.filter fun p => p.2 == "Quantidade").length = 2 := by decide

/-- Claim C4 (amended): an auto-guessed mapping assigns at most one source
column to each DomainField (its value list has no duplicate, first match over
fields-then-columns iteration winning); a manually submitted mapping is only
checked for required-field coverage and may assign several columns to one
field, in which case the field-to-column inversion used by Execute resolves
to the last assigned column, not the first. -/
theorem C4_amended :
    (∀ cols : List String,
      ((tentar_mapeamento_automatico cols).1.map Prod.snd).Nodup) ∧
    ∀ (m : Mapping) (c f : String), dictGet (invert (m ++ [(c, f)])) f = some c := by
  constructor
  · intro cols
    have h : (tentar_mapeamento_automatico cols).1 = autoFold cols system_fields [] := rfl
    rw [h]
    exact autoFold_nodup_values cols
  · exact invert_last_wins

/-- Claim C8 counterexample: the outcome shown for a zero-row file and for a
file whose rows were all skipped is the same "no valid rows" warning — the
code does not visually distinguish the two cases. -/
theorem C8_counterexample :
    (worker_import [] false M0 "t" []).message = FinalMessage.noValidRows ∧
    (worker_import [] false M0 "t" [mkRow "0" "5"]).message = FinalMessage.noValidRows ∧
    (worker_import [] false M0 "t" []).rows_total = 0 ∧
    (worker_import [] false M0 "t" [mkRow "0" "5"]).rows_total = 1 ∧
    (worker_import [] false M0 "t" []).message =
      (worker_import [] false M0 "t" [mkRow "0" "5"]).message := by decide

/-- Claim C8 (amended): when the candidate batch is empty the import reports
zero commits with the distinct "no valid rows" warning (not the insert-failure
error, and the store is not touched); the same outcome is shown whether the
rows were all skipped or the file had no rows — the two cases are not
distinguished. -/
theorem C8_amended (db : List Sale) (dbFails : Bool) (m : Mapping) (now : String)
    (rows : List RawRow) (h : (processRows m now rows).batch = []) :
    (worker_import db dbFails m now rows).message = FinalMessage.noValidRows ∧
    (worker_import db dbFails m now rows).rows_committed = 0 ∧
    (worker_import db dbFails m now rows).newDb = db := by
  have hE : (processRows m now rows).batch.isEmpty = true := by rw [h]; rfl
  simp [worker_import, hE]

/-- Witness for C8_amended: the empty file. -/
theorem C8_amended_witness :
    (worker_import [] false M0 "t" []).message = FinalMessage.noValidRows ∧
    (worker_import [] false M0 "t" []).rows_committed = 0 ∧
    (worker_import [] false M0 "t" []).newDb = [] :=
  C8_amended [] false M0 "t" [] (by decide)

theorem autoFold_cons (cols : List String) (f : String) (rest : List String) (m : Mapping) :
    autoFold cols (f :: rest) m =
      match findColFor cols m f with
      | some col => autoFold cols rest (m ++ [(col, f)])
      | none => autoFold cols rest m := rfl

/-- Claim C9 counterexample: the header ["Nome", "Cliente"] contains a column
literally named "Cliente", yet auto-mapping assigns Client Name to "Nome"
(scanned first, matched by the generic nome rule) and "Cliente" to nothing. -/
theorem C9_counterexample :
    (tentar_mapeamento_automatico ["Nome", "Cliente"]).1 =
      [("Nome", "Nome do Cliente")] ∧
    ((tentar_mapeamento_automatico ["Nome", "Cliente"]).1.any
      fun p => p.1 == "Cliente") = false := by decide

/-- Claim C9 (amended): guess_mapping classifies a column named "Cliente" as
Client Name and nothing else (every assigned pair of the auto mapping carries
the guess of its column, so a pair on column "Cliente" can only map to Client
Name); auto-mapping assigns Client Name to the first header column whose
guess is Client Name, so "Cliente" is assigned to Client Name whenever no
earlier column also guesses as Client Name. -/
theorem C9_amended :
    guess_mapping "Cliente" = "Nome do Cliente" ∧
    (∀ (cols : List String) (p : String × String),
      p ∈ (tentar_mapeamento_automatico cols).1 → p.2 = guess_mapping p.1) ∧
    ∀ pre post : List String,
      (∀ c ∈ pre, guess_mapping c ≠ "Nome do Cliente") →
      ("Cliente", "Nome do Cliente") ∈
        (tentar_mapeamento_automatico (pre ++ "Cliente" :: post)).1 := by
  refine ⟨by decide, ?_, ?_⟩
  · intro cols p hp
    rcases autoFold_guess cols system_fields [] p hp with hm | hg
    · cases hm
    · exact hg.symm
  · intro pre post hpre
    have hosp : ∀ c ∈ pre,
        (guess_mapping c == "Nome do Cliente" &&
          !(List.any ([] : Mapping) fun p => p.1 == c)) = false := by
      intro c hc
      have hb : (guess_mapping c == "Nome do Cliente") = false :=
        beq_eq_false_iff_ne.mpr (hpre c hc)
      rw [hb]
      rfl
    have hfind : findColFor (pre ++ "Cliente" :: post) [] "Nome do Cliente" =
        some "Cliente" := by
      unfold findColFor
      rw [find?_append_none _ pre _ hosp]
      exact List.find?_cons_of_pos _ (by decide)
    have hsf : system_fields =
        "Nome do Cliente" :: ["Nome do Produto", "Quantidade",
          "Valor por unidade (R$)", "Tipo de Pagamento", "Nome do Vendedor"] := rfl
    have hm : (tentar_mapeamento_automatico (pre ++ "Cliente" :: post)).1 =
        autoFold (pre ++ "Cliente" :: post) system_fields [] := rfl
    rw [hm, hsf, autoFold_cons, hfind]
    exact autoFold_mem _ _ _ _ (by simp)

/-- Witness for C9_amended: with no earlier column, "Cliente" is assigned. -/
theorem C9_amended_witness :
    ("Cliente", "Nome do Cliente") ∈
      (tentar_mapeamento_automatico (([] : List String) ++ "Cliente" :: ["Qtd"])).1 :=
  C9_amended.2.2 [] ["Qtd"] (by simp)

/-- Claim C5 (confirmed): rows whose quantity cell is "0", "-3", "3.5" or
"abc" are all rejected — "0" and "-3" coerce but fail the positivity
condition of the validity check, "3.5" and "abc" fail integer coercion — and
a row whose unit-value cell is "-5" coerces to a negative price and is
rejected by the validity check; in general an accepted row always has a
quantity cell parsing to a positive integer and a unit-value cell parsing to
a non-negative decimal. -/
theorem C5_row_rejection :
    convertRow M0 "t" (mkRow "0" "5") = RowResult.skipInvalid ∧
    pyInt "0" = some 0 ∧
    convertRow M0 "t" (mkRow "-3" "5") = RowResult.skipInvalid ∧
    convertRow M0 "t" (mkRow "3.5" "5") = RowResult.skipError "ValueError" ∧
    convertRow M0 "t" (mkRow "abc" "5") = RowResult.skipError "ValueError" ∧
    convertRow M0 "t" (mkRow "3" "-5") = RowResult.skipInvalid ∧
    ((pyFloat (commaToDot "-5")).map fun d => d.num) = some (-5) ∧
    (∀ (m : Mapping) (now : String) (row : RawRow) (s : Sale) (qs : String),
      convertRow m now row = RowResult.ok s →
      mappedCell m row "Quantidade" = some qs →
      ∃ n, pyInt qs = some n ∧ 0 < n) ∧
    (∀ (m : Mapping) (now : String) (row : RawRow) (s : Sale) (vs : String),
      convertRow m now row = RowResult.ok s →
      mappedCell m row "Valor por unidade (R$)" = some vs →
      ∃ d, pyFloat (commaToDot vs) = some d ∧ 0 ≤ d.toRat) := by
  refine ⟨by decide, by decide, by decide, by decide, by decide, by decide, by decide, ?_, ?_⟩
  · intro m now row s qs hok hcell
    obtain ⟨hco, -, -, hq, -, -, -, -, -⟩ := convertRow_ok_inv m now row s hok
    obtain ⟨-, -, qs0, vs0, hget, hparse, -, -⟩ := coerceRow_ok_inv m row _ _ _ _ hco
    have hget2 := getCell_of_mappedCell m row _ _ hcell
    rw [hget] at hget2
    injection hget2 with he
    exact ⟨s.quantidade, he ▸ hparse, hq⟩
  · intro m now row s vs hok hcell
    obtain ⟨hco, -, -, -, hpu, -, -, -, -⟩ := convertRow_ok_inv m now row s hok
    obtain ⟨-, -, qs0, vs0, -, -, hget, hparse⟩ := coerceRow_ok_inv m row _ _ _ _ hco
    have hget2 := getCell_of_mappedCell m row _ _ hcell
    rw [hget] at hget2
    injection hget2 with he
    refine ⟨s.preco_unitario, he ▸ hparse, ?_⟩
    unfold DecimalVal.toRat
    apply div_nonneg
    · exact_mod_cast hpu
    · exact Nat.cast_nonneg _

/-- Witness for the universal parts of C5_row_rejection at the accepted row
mkRow "3" "10,50" under M0. -/
theorem C5_witness :
    (∃ n, pyInt "3" = some n ∧ 0 < n) ∧
    (∃ d, pyFloat (commaToDot "10,50") = some d ∧ 0 ≤ d.toRat) :=
  ⟨C5_row_rejection.2.2.2.2.2.2.2.1 M0 "t" (mkRow "3" "10,50") sale3 "3"
      (by decide) (by decide),
    C5_row_rejection.2.2.2.2.2.2.2.2 M0 "t" (mkRow "3" "10,50") sale3 "10,50"
      (by decide) (by decide)⟩

/-- Claim C6 (confirmed): the row with quantity "3" and unit value "10,50"
converts under M0 to a sale with quantity 3, unit price of value 10.5 and
final price of value 31.5; comma and dot decimal separators parse to the
same value; and every accepted sale has final price equal to quantity times
unit price. -/
theorem C6_conversion_values :
    convertRow M0 "t" (mkRow "3" "10,50") = RowResult.ok sale3 ∧
    sale3.quantidade = 3 ∧
    sale3.preco_unitario.toRat = 21 / 2 ∧
    sale3.preco_final.toRat = 63 / 2 ∧
    ((pyFloat (commaToDot "10,50")).map DecimalVal.toRat) = some (21 / 2) ∧
    ((pyFloat (commaToDot "10.50")).map DecimalVal.toRat) = some (21 / 2) ∧
    (∀ (m : Mapping) (now : String) (row : RawRow) (s : Sale),
      convertRow m now row = RowResult.ok s →
      s.preco_final.toRat = (s.quantidade : Rat) * s.preco_unitario.toRat) ∧
    (∀ (m : Mapping) (now : String) (row : RawRow) (s : Sale),
      convertRow m now row = RowResult.ok s →
      mappedCell m row "Quantidade" = some "3" →
      mappedCell m row "Valor por unidade (R$)" = some "10,50" →
      s.quantidade = 3 ∧ s.preco_unitario.toRat = 21 / 2 ∧
        s.preco_final.toRat = 63 / 2) := by
  have hval : (DecimalVal.mk 1050 100).toRat = 21 / 2 := by
    unfold DecimalVal.toRat; norm_num
  have hfin : ∀ (m : Mapping) (now : String) (row : RawRow) (s : Sale),
      convertRow m now row = RowResult.ok s →
      s.preco_final.toRat = (s.quantidade : Rat) * s.preco_unitario.toRat := by
    intro m now row s hok
    obtain ⟨-, -, -, -, -, hpf, -, -, -⟩ := convertRow_ok_inv m now row s hok
    rw [hpf]
    unfold DecimalVal.toRat
    push_cast
    ring
  refine ⟨by decide, by decide, hval, ?_, ?_, ?_, hfin, ?_⟩
  · have h3 : convertRow M0 "t" (mkRow "3" "10,50") = RowResult.ok sale3 := by decide
    rw [hfin M0 "t" (mkRow "3" "10,50") sale3 h3]
    norm_num [sale3, DecimalVal.toRat]
  · rw [show pyFloat (commaToDot "10,50") = some ⟨1050, 100⟩ from by decide]
    simp [hval]
  · rw [show pyFloat (commaToDot "10.50") = some ⟨1050, 100⟩ from by decide]
    simp [hval]
  · intro m now row s hok hq hv
    obtain ⟨hco, -, -, -, -, hpf, -, -, -⟩ := convertRow_ok_inv m now row s hok
    obtain ⟨-, -, qs0, vs0, hgq, hpq, hgv, hpv⟩ := coerceRow_ok_inv m row _ _ _ _ hco
    have hgq2 := getCell_of_mappedCell m row _ _ hq
    rw [hgq] at hgq2
    injection hgq2 with heq
    have hgv2 := getCell_of_mappedCell m row _ _ hv
    rw [hgv] at hgv2
    injection hgv2 with hev
    have hq3 : s.quantidade = 3 := by
      have := heq ▸ hpq
      rw [show pyInt "3" = some 3 from by decide] at this
      exact (Option.some.injEq _ _ ▸ this).symm ▸ rfl
    have hpu : s.preco_unitario = ⟨1050, 100⟩ := by
      have := hev ▸ hpv
      rw [show pyFloat (commaToDot "10,50") = some ⟨1050, 100⟩ from by decide] at this
      injection this with h
      exact h.symm
    refine ⟨hq3, by rw [hpu]; exact hval, ?_⟩
    rw [hpf, hpu, hq3]
    unfold DecimalVal.toRat
    norm_num

/-- Witness for the universal parts of C6_conversion_values at the accepted
row mkRow "3" "10,50" under M0. -/
theorem C6_witness :
    sale3.preco_final.toRat = (sale3.quantidade : Rat) * sale3.preco_unitario.toRat :=
  C6_conversion_values.2.2.2.2.2.2.1 M0 "t" (mkRow "3" "10,50") sale3 (by decide)

/-- Claim C7 counterexample: under M1 the Payment Type field is mapped and the
cell of rowE is present but empty; the conversion keeps the empty string
instead of the sentinel "Não Informado", so the default is not applied on an
empty mapped cell. -/
theorem C7_counterexample :
    convertRow M1 "t" rowE =
      RowResult.ok ⟨"Ana", "Bolo", 2, ⟨3, 1⟩, "", ⟨6, 1⟩, "Importado", "t"⟩ ∧
    ("" : String) ≠ "Não Informado" := by decide

/-- Claim C7 (amended): the sentinel defaults "Não Informado" and "Importado"
are applied exactly when the optional field is unmapped or its mapped column
is absent from the row; a present-but-empty cell is kept as the empty
string. -/
theorem C7_amended (m : Mapping) (now : String) (row : RawRow) (s : Sale)
    (h : convertRow m now row = RowResult.ok s) :
    (unmappedOrMissing m row "Tipo de Pagamento" = true →
      s.tipo_pagamento = "Não Informado") ∧
    (unmappedOrMissing m row "Nome do Vendedor" = true →
      s.nome_vendedor = "Importado") := by
  obtain ⟨-, -, -, -, -, -, htp, hnv, -⟩ := convertRow_ok_inv m now row s h
  exact ⟨fun hu => htp.trans (unmappedOrMissing_default m row _ _ hu),
    fun hu => hnv.trans (unmappedOrMissing_default m row _ _ hu)⟩

/-- Witness for C7_amended: under M0 neither optional field is mapped, and the
accepted sale carries both sentinels. -/
theorem C7_amended_witness :
    sale3.tipo_pagamento = "Não Informado" ∧ sale3.nome_vendedor = "Importado" := by
  have h := C7_amended M0 "t" (mkRow "3" "10,50") sale3 (by decide)
  exact ⟨h.1 (by decide), h.2 (by decide)⟩
